import Mathlib

set_option maxHeartbeats 1000000
set_option linter.unusedVariables false
set_option linter.unreachableTactic false
set_option linter.unusedTactic false
set_option linter.unnecessarySeqFocus false

/-!
A shallow embedding of rc-socket.js (dist/common/rc-socket.js), a
reconnecting WebSocket wrapper.  The mutable fields of an RcSocket
instance become a structure; each method of the source becomes a pure
function returning the new state together with the list of externally
visible effects (handler triggers, transport sends, transport close
requests, transport creations); the timer- and event-driven control
flow becomes a total step function over environment events, with the
pending timers (connect-timeout, reconnect setTimeout, per-entry flush
setTimeout) carried explicitly in the state.
-/

/-- A JS value carried through send and the queue; none models the JS
value undefined (for example the result of an out-of-bounds array
read such as queue index in the flush callback). -/
abbrev JsVal := Option Nat

/-- JS truthiness of the readyState field: undefined (none) and 0
(WebSocket.CONNECTING) are falsy; every other state code is truthy. -/
def jsTruthy : Option Nat → Bool
  | none => false
  | some n => n != 0

/-- The augmented close event delivered to the owner, mirroring the
fields _onclose attaches to evt before dispatching it. -/
structure CloseEvt where
  forced : Bool
  isRetrying : Bool
  isRefreshing : Bool
deriving DecidableEq, Repr

/-- Externally visible effects of a step: handler triggers through
the event proxy, plus the raw transport operations the code performs. -/
inductive Out where
  | onconnecting : Out
  | onopen : Out
  | ontimeout : Out
  | onmessage (d : JsVal) : Out
  | onerror : Out
  | onclose (evt : CloseEvt) : Out
  | wsSend (d : JsVal) : Out
  | wsCloseReq : Out
  | connectAttempt : Out
deriving DecidableEq, Repr

/-- The mutable state of an RcSocket instance, from the constructor,
together with the pending timers.  The queue is stored exactly as the
JS array: send does queue.unshift(data), so index 0 is the newest
entry and the last entry is the oldest.  readyState is none until the
first stateChanged call (undefined in JS); flushTimers holds the
pending delayQueueSend timeouts as pairs of the captured queue index
and the setTimeout delay; reconnectTimers holds the pending
setTimeout(connect) delays (the constructor arms one with delay 0). -/
structure RcState where
  timeout : Nat := 2500
  maxRetry : Nat := 1000
  delay : Nat := 100
  hasUnloaded : Bool := false
  hasOpened : Bool := false
  wasForced : Bool := false
  isRetrying : Bool := false
  isRefreshing : Bool := false
  attempts : Nat := 1
  queue : List JsVal := []
  ws : Bool := false
  readyState : Option Nat := none
  connectTimer : Bool := false
  reconnectTimers : List Nat := []
  flushTimers : List (Nat × Nat) := []
deriving DecidableEq, Repr

/-- RcSocket.prototype.send: if this.ws and this.readyState are both
truthy the payload goes straight to the transport, otherwise it is
unshifted onto the front of the queue. -/
def RcState.send (s : RcState) (d : JsVal) : RcState × List Out :=
  if s.ws && jsTruthy s.readyState then (s, [Out.wsSend d])
  else ({ s with queue := d :: s.queue }, [])

/-- RcSocket.prototype._close: request transport closure when a
transport exists, otherwise do nothing. -/
def RcState.closeInternal (s : RcState) : RcState × List Out :=
  if s.ws then (s, [Out.wsCloseReq]) else (s, [])

/-- RcSocket.prototype.close: set wasForced then _close. -/
def RcState.close (s : RcState) : RcState × List Out :=
  RcState.closeInternal { s with wasForced := true }

/-- RcSocket.prototype.retry: set isRetrying then _close. -/
def RcState.retry (s : RcState) : RcState × List Out :=
  RcState.closeInternal { s with isRetrying := true }

/-- RcSocket.prototype.refresh: set isRefreshing then _close. -/
def RcState.refresh (s : RcState) : RcState × List Out :=
  RcState.closeInternal { s with isRefreshing := true }

/-- RcSocket.prototype._reconnect: compute the backoff interval
(2 ^ attempts - 1) * 1000 capped at maxRetry, increment attempts, and
arm a setTimeout(connect, interval). -/
def RcState.reconnect (s : RcState) : RcState :=
  { s with
    attempts := s.attempts + 1,
    reconnectTimers := s.reconnectTimers ++
      [if s.maxRetry < (2 ^ s.attempts - 1) * 1000 then s.maxRetry
       else (2 ^ s.attempts - 1) * 1000] }

/-- RcSocket.prototype._connect: create a fresh WebSocket, arm the
connect-timeout timer, and stateChanged to CONNECTING (readyState 0)
with the onconnecting trigger. -/
def RcState.connect (s : RcState) : RcState × List Out :=
  ({ s with ws := true, connectTimer := true, readyState := some 0 },
   [Out.connectAttempt, Out.onconnecting])

/-- RcSocket.prototype._sendQueued: with length the queue length, loop
index from length - 1 down to 0 calling
delayQueueSend(index, length - index), i.e. arm one flush timeout per
entry: the pair scheduled k-th carries queue index length - 1 - k and
setTimeout delay equal to delay * (k + 1). -/
def RcState.sendQueued (s : RcState) : RcState :=
  { s with
    flushTimers := s.flushTimers ++
      (List.range s.queue.length).map
        (fun k => (s.queue.length - 1 - k, s.delay * (k + 1))) }

/-- RcSocket.prototype._onopen: clear the connect-timeout; when
wasForced is set, immediately this.close() instead of reporting open;
otherwise set hasOpened, reset attempts to 1, stateChanged to OPEN
(readyState 1) triggering onopen, then sendQueued. -/
def RcState.onopen (s : RcState) : RcState × List Out :=
  if s.wasForced then RcState.close { s with connectTimer := false }
  else
    (RcState.sendQueued
      { s with
        connectTimer := false
        hasOpened := true
        attempts := 1
        readyState := some 1 },
     [Out.onopen])

/-- RcSocket.prototype._onclose: clear the connect-timeout, null out
the transport, build the augmented event from the current flags; on
wasForced, stateChanged to CLOSED (readyState 3) triggering onclose;
otherwise, when hasUnloaded, do nothing at all; otherwise trigger
onclose only when hasOpened, clear isRetrying, isRefreshing and
hasOpened, and reconnect. -/
def RcState.onclose (s : RcState) : RcState × List Out :=
  if s.wasForced then
    ({ s with connectTimer := false, ws := false, readyState := some 3 },
     [Out.onclose ⟨s.wasForced, s.isRetrying, s.isRefreshing⟩])
  else if s.hasUnloaded then
    ({ s with connectTimer := false, ws := false }, [])
  else
    (RcState.reconnect
      { s with
        connectTimer := false
        ws := false
        isRetrying := false
        isRefreshing := false
        hasOpened := false },
     if s.hasOpened then
       [Out.onclose ⟨s.wasForced, s.isRetrying, s.isRefreshing⟩]
     else [])

/-- The connect-timeout callback: trigger ontimeout then this.retry();
the fired timer is no longer pending. -/
def RcState.timeoutFire (s : RcState) : RcState × List Out :=
  ((RcState.retry { s with connectTimer := false }).1,
   Out.ontimeout :: (RcState.retry { s with connectTimer := false }).2)

/-- The delayQueueSend callback for a captured index:
this.send(this.queue[index]) (out of bounds reads undefined) followed
by this.queue.pop(), which removes the last (oldest) entry. -/
def RcState.flushFire (s : RcState) (index : Nat) : RcState × List Out :=
  ({ (RcState.send s (s.queue.getD index none)).1 with
     queue := (RcState.send s (s.queue.getD index none)).1.queue.dropLast },
   (RcState.send s (s.queue.getD index none)).2)

/-- Environment events driving the machine: owner calls, the unload
notification, raw transport signals (delivered only while a transport
exists), and the firing of each kind of pending timer. -/
inductive Ev where
  | send (d : JsVal) : Ev
  | close : Ev
  | retry : Ev
  | refresh : Ev
  | unload : Ev
  | wsOpen : Ev
  | wsClose : Ev
  | wsMessage (d : JsVal) : Ev
  | wsError : Ev
  | fireTimeout : Ev
  | fireReconnect : Ev
  | fireFlush (i : Nat) : Ev
deriving DecidableEq, Repr

/-- One step of the machine: dispatch an environment event.  Transport
signals are no-ops without a transport; a cleared connect-timeout
never fires; firing a reconnect or flush timer consumes it. -/
def step (s : RcState) (e : Ev) : RcState × List Out :=
  match e with
  | Ev.send d => RcState.send s d
  | Ev.close => RcState.close s
  | Ev.retry => RcState.retry s
  | Ev.refresh => RcState.refresh s
  | Ev.unload => ({ s with hasUnloaded := true }, [])
  | Ev.wsOpen => if s.ws then RcState.onopen s else (s, [])
  | Ev.wsClose => if s.ws then RcState.onclose s else (s, [])
  | Ev.wsMessage d => if s.ws then (s, [Out.onmessage d]) else (s, [])
  | Ev.wsError => if s.ws then (s, [Out.onerror]) else (s, [])
  | Ev.fireTimeout => if s.connectTimer then RcState.timeoutFire s else (s, [])
  | Ev.fireReconnect =>
    match s.reconnectTimers with
    | [] => (s, [])
    | _ :: rest => RcState.connect { s with reconnectTimers := rest }
  | Ev.fireFlush i =>
    match s.flushTimers[i]? with
    | none => (s, [])
    | some p => RcState.flushFire { s with flushTimers := s.flushTimers.eraseIdx i } p.1

/-- Run a list of events from a state, collecting all outputs. -/
def run (s : RcState) : List Ev → RcState × List Out
  | [] => (s, [])
  | e :: rest =>
    ((run (step s e).1 rest).1, (step s e).2 ++ (run (step s e).1 rest).2)

/-- The state right after the constructor: all defaults, with the
setTimeout(connect, 0) the constructor arms recorded as one pending
reconnect timer of delay 0. -/
def initState : RcState := { reconnectTimers := [0] }

/-- States reachable from the constructor state under any event
sequence. -/
inductive Reachable : RcState → Prop where
  | base : Reachable initState
  | next {s : RcState} (hs : Reachable s) (e : Ev) : Reachable (step s e).1

/-- The queue read oldest-first: the JS array is newest-first because
send unshifts, so the FIFO view is its reverse. -/
def fifoView (q : List JsVal) : List JsVal := q.reverse


/-- The failing trace for claim C1: start the initial connect, enqueue
payloads 1 then 2 while CONNECTING, open (scheduling the two flush
timeouts), lose the connection, start reconnecting, enqueue payload 3,
then let the two flush timeouts fire in delay order. -/
def c1Trace : List Ev :=
  [Ev.fireReconnect, Ev.send (some 1), Ev.send (some 2), Ev.wsOpen,
   Ev.wsClose, Ev.fireReconnect, Ev.send (some 3),
   Ev.fireFlush 0, Ev.fireFlush 0]
/-- The counterexample trace for claim C2: initial connect, connect
timeout fires (retry), the transport close is processed (scheduling a
reconnect timer of 1000 ms), then the owner calls close(). -/
def c2Trace : List Ev :=
  [Ev.fireReconnect, Ev.fireTimeout, Ev.wsClose, Ev.close]
/-- A concrete suppressed state for the claim C3 witness. -/
def c3state : RcState := { hasUnloaded := true, ws := true }
/-- A concrete forced-while-connecting state for the claim C9 witness. -/
def c9state : RcState := { ws := true, wasForced := true, connectTimer := true }

/-- Claim C1: the code evaluated at the failing trace.  Payload 1, ihe
oldest queued entry, is never forwarded to any transport along the
trace, yet it has been removed from the queue (popped positionally by
the flush callbacks) and no flush timer remains that could still
deliver it; the queue instead ends holding payload 2 twice.  This
refutes identity-based exactly-once delivery under an interleaved
send. -/
theorem c1_flush_loses_payload :
    Out.wsSend (some 1) ∉ (run initState c1Trace).2
    ∧ (run initState c1Trace).1.queue = [some 2, some 2, some 3]
    ∧ (run initState c1Trace).1.flushTimers = []
    ∧ some 1 ∉ (run initState c1Trace).1.queue := by decide


/-- Claim C2 counterexample: after close() is called while a
reconnect-delay timer is pending, the timer is still pending (close()
cancels nothing) and firing it executes a further connect attempt. -/
theorem c2_close_does_not_cancel_reconnect :
    (run initState c2Trace).1.wasForced = true
    ∧ (run initState c2Trace).1.reconnectTimers = [1000]
    ∧ (step (run initState c2Trace).1 Ev.fireReconnect).2
        = [Out.connectAttempt, Out.onconnecting] := by decide

/-- Claim C2 (amended): once wasForced is set it stays set and no step
ever schedules a new reconnect timer (pending ones can only be
consumed); close() called with a live transport and no pending
reconnect timer reaches CLOSED on the transport close with nothing
further scheduled; but close() called with no live transport only
sets wasForced and in particular leaves any pending reconnect-delay
timer in place. -/
theorem c2_forced_close_terminal (s : RcState) :
    (s.wasForced = true → ∀ e : Ev,
      (step s e).1.wasForced = true
      ∧ (step s e).1.reconnectTimers.length ≤ s.reconnectTimers.length)
    ∧ (s.ws = true → s.reconnectTimers = [] →
        (step (step s Ev.close).1 Ev.wsClose).1.readyState = some 3
        ∧ (step (step s Ev.close).1 Ev.wsClose).1.reconnectTimers = []
        ∧ (step (step s Ev.close).1 Ev.wsClose).2
            = [Out.onclose ⟨true, s.isRetrying, s.isRefreshing⟩])
    ∧ (s.ws = false → step s Ev.close = ({ s with wasForced := true }, [])) := by
  refine ⟨?_, ?_, ?_⟩
  · intro h e
    cases e <;>
      simp_all [step, RcState.send, RcState.close, RcState.retry, RcState.refresh,
        RcState.closeInternal, RcState.onopen, RcState.onclose, RcState.connect,
        RcState.timeoutFire, RcState.flushFire, RcState.sendQueued,
        RcState.reconnect] <;>
      (try split) <;> simp_all <;> (try split) <;> simp_all
  · intro h1 h2
    simp_all [step, RcState.close, RcState.closeInternal, RcState.onclose]
  · intro h1
    simp_all [step, RcState.close, RcState.closeInternal]

/-- Claim C3: with hasUnloaded set and the close not owner-forced, a
transport close produces no output at all (neither the owner close
handler nor anything else) and changes nothing except discarding the
transport and the connect-timeout: no reconnect is scheduled and no
forced-labeled close is reported. -/
theorem c3_suppressed_close (s : RcState) (h1 : s.hasUnloaded = true)
    (h2 : s.wasForced = false) (h3 : s.ws = true) :
    step s Ev.wsClose = ({ s with connectTimer := false, ws := false }, []) := by
  simp [step, RcState.onclose, h1, h2, h3]


/-- Claim C3 witness at a concrete suppressed state. -/
theorem c3_suppressed_close_witness :
    step c3state Ev.wsClose = ({ c3state with connectTimer := false, ws := false }, []) :=
  c3_suppressed_close c3state rfl rfl rfl

/-- Claim C4: entering the reconnect wait schedules a connect after
exactly min maxRetry ((2 ^ attempts - 1) * 1000) milliseconds, so the
computed delay never exceeds the configured maximum, and the attempt
counter is advanced by one. -/
theorem c4_reconnect_delay (s : RcState) (hpos : 1 ≤ s.attempts) :
    (RcState.reconnect s).reconnectTimers =
      s.reconnectTimers ++ [min s.maxRetry ((2 ^ s.attempts - 1) * 1000)]
    ∧ min s.maxRetry ((2 ^ s.attempts - 1) * 1000) ≤ s.maxRetry
    ∧ (RcState.reconnect s).attempts = s.attempts + 1 := by
  have hmin : (if s.maxRetry < (2 ^ s.attempts - 1) * 1000 then s.maxRetry
      else (2 ^ s.attempts - 1) * 1000)
      = min s.maxRetry ((2 ^ s.attempts - 1) * 1000) := by
    rw [Nat.min_def]; split <;> split <;> omega
  exact ⟨by simp [RcState.reconnect, hmin], Nat.min_le_left _ _, rfl⟩

/-- Claim C4 witness at the constructor state. -/
theorem c4_reconnect_delay_witness :
    (RcState.reconnect initState).reconnectTimers
      = initState.reconnectTimers
        ++ [min initState.maxRetry ((2 ^ initState.attempts - 1) * 1000)] :=
  (c4_reconnect_delay initState (by decide)).1

/-- Claim C9: when the transport open signal arrives while wasForced
is already set, the only effect is closing the just-opened transport:
no open notification is dispatched, hasOpened stays false, the
attempt counter is not reset, and the whole state is unchanged apart
from clearing the connect-timeout. -/
theorem c9_open_while_forced (s : RcState) (h1 : s.ws = true)
    (h2 : s.wasForced = true) (h3 : s.hasOpened = false) :
    (step s Ev.wsOpen).2 = [Out.wsCloseReq]
    ∧ (step s Ev.wsOpen).1 = { s with connectTimer := false }
    ∧ (step s Ev.wsOpen).1.hasOpened = false
    ∧ (step s Ev.wsOpen).1.attempts = s.attempts := by
  refine ⟨?_, ?_, ?_, ?_⟩ <;>
    simp [step, RcState.onopen, RcState.close, RcState.closeInternal, h1, h2, h3]

/-- Helper: no step other than processing a transport close signal
ever clears isRetrying (retry and the connect timeout set it; the
rest leave it alone). -/
theorem isRetrying_persists (s : RcState) (hs : s.isRetrying = true) (e : Ev)
    (he : e ≠ Ev.wsClose) : (step s e).1.isRetrying = true := by
  cases e <;>
    simp_all [step, RcState.send, RcState.close, RcState.retry, RcState.refresh,
      RcState.closeInternal, RcState.onopen, RcState.onclose, RcState.connect,
      RcState.timeoutFire, RcState.flushFire, RcState.sendQueued,
      RcState.reconnect] <;>
    (try split) <;> (try simp_all) <;> (try split) <;> (try simp_all) <;>
    (try split) <;> (try simp_all) <;> (try omega)

/-- Helper: no step other than processing a transport close signal
ever clears isRefreshing. -/
theorem isRefreshing_persists (s : RcState) (hs : s.isRefreshing = true) (e : Ev)
    (he : e ≠ Ev.wsClose) : (step s e).1.isRefreshing = true := by
  cases e <;>
    simp_all [step, RcState.send, RcState.close, RcState.retry, RcState.refresh,
      RcState.closeInternal, RcState.onopen, RcState.onclose, RcState.connect,
      RcState.timeoutFire, RcState.flushFire, RcState.sendQueued,
      RcState.reconnect] <;>
    (try split) <;> (try simp_all) <;> (try split) <;> (try simp_all) <;>
    (try split) <;> (try simp_all) <;> (try omega)

/-- Claim C6: send forwards the payload directly exactly when a
transport exists and the readyState is truthy; otherwise it enqueues,
and in the FIFO (oldest-first) view of the queue the new payload is
appended at the end, the rest of the state untouched.  For an actual
state code the truthiness test accepts every code except 0
(connecting): open (1), closing (2) and closed (3) all count as
sendable. -/
theorem c6_send (s : RcState) (d : JsVal) :
    (s.ws = true → jsTruthy s.readyState = true →
      RcState.send s d = (s, [Out.wsSend d]))
    ∧ (s.ws = false ∨ jsTruthy s.readyState = false →
        (RcState.send s d).2 = []
        ∧ fifoView (RcState.send s d).1.queue = fifoView s.queue ++ [d]
        ∧ (RcState.send s d).1.ws = s.ws
        ∧ (RcState.send s d).1.readyState = s.readyState
        ∧ (RcState.send s d).1.attempts = s.attempts)
    ∧ (∀ n : Nat, jsTruthy (some n) = true ↔ n ≠ 0) := by
  refine ⟨fun h1 h2 => by simp [RcState.send, h1, h2], fun h => ?_, fun n => by
    simp [jsTruthy]⟩
  rcases h with h | h <;> simp [RcState.send, h, fifoView]

/-- Claim C6 witness: direct forwarding in an open state, queueing in
the constructor state. -/
theorem c6_send_witness :
    RcState.send { ws := true, readyState := some 1 } (some 5)
      = ({ ws := true, readyState := some 1 }, [Out.wsSend (some 5)])
    ∧ fifoView (RcState.send initState (some 5)).1.queue
        = fifoView initState.queue ++ [some 5] :=
  ⟨(c6_send { ws := true, readyState := some 1 } (some 5)).1 rfl rfl,
   ((c6_send initState (some 5)).2.1 (Or.inl rfl)).2.1⟩

/-- Claim C10: calling retry or refresh with no live transport only
sets the corresponding flag: no output is produced (no close event,
no connect attempt) and every other field is untouched; the flag then
persists across every step except a transport close, and a transport
close processed while the connection had opened reports the flags in
the augmented close event. -/
theorem c10_retry_refresh_without_transport (s : RcState) (h : s.ws = false) :
    step s Ev.retry = ({ s with isRetrying := true }, [])
    ∧ step s Ev.refresh = ({ s with isRefreshing := true }, [])
    ∧ (∀ e : Ev, e ≠ Ev.wsClose →
        (step { s with isRetrying := true } e).1.isRetrying = true)
    ∧ (∀ e : Ev, e ≠ Ev.wsClose →
        (step { s with isRefreshing := true } e).1.isRefreshing = true)
    ∧ (∀ t : RcState, t.ws = true → t.wasForced = false → t.hasUnloaded = false →
        t.hasOpened = true →
        (step t Ev.wsClose).2 = [Out.onclose ⟨false, t.isRetrying, t.isRefreshing⟩]) := by
  refine ⟨by simp [step, RcState.retry, RcState.closeInternal, h],
    by simp [step, RcState.refresh, RcState.closeInternal, h],
    fun e he => isRetrying_persists _ (by simp) e he,
    fun e he => isRefreshing_persists _ (by simp) e he,
    fun t h1 h2 h3 h4 => by simp [step, RcState.onclose, h1, h2, h3, h4]⟩

/-- Claim C10 witness: retry at the constructor state (no transport
yet) only sets the flag. -/
theorem c10_retry_refresh_without_transport_witness :
    step initState Ev.retry = ({ initState with isRetrying := true }, [])
    ∧ step initState Ev.refresh = ({ initState with isRefreshing := true }, []) :=
  ⟨(c10_retry_refresh_without_transport initState rfl).1,
   (c10_retry_refresh_without_transport initState rfl).2.1⟩


/-- Claim C9 witness at a concrete state. -/
theorem c9_open_while_forced_witness :
    (step c9state Ev.wsOpen).2 = [Out.wsCloseReq]
    ∧ (step c9state Ev.wsOpen).1 = { c9state with connectTimer := false } :=
  ⟨(c9_open_while_forced c9state rfl rfl rfl).1,
   (c9_open_while_forced c9state rfl rfl rfl).2.1⟩

/-- Helper: one step preserves the invariant that the connect-timeout
timer is pending only while a transport exists. -/
theorem step_timer_ws (s : RcState) (h : s.connectTimer = true → s.ws = true)
    (e : Ev) : (step s e).1.connectTimer = true → (step s e).1.ws = true := by
  cases e <;>
    simp_all [step, RcState.send, RcState.close, RcState.retry, RcState.refresh,
      RcState.closeInternal, RcState.onopen, RcState.onclose, RcState.connect,
      RcState.timeoutFire, RcState.flushFire, RcState.sendQueued,
      RcState.reconnect] <;>
    (try split) <;> (try simp_all) <;> (try split) <;> (try simp_all) <;>
    (try split) <;> (try simp_all) <;> (try omega)

/-- Helper: in every reachable state the connect-timeout timer is
pending only while a transport exists. -/
theorem reachable_timer_ws (s : RcState) (hr : Reachable s) :
    s.connectTimer = true → s.ws = true := by
  induction hr with
  | base => simp [initState]
  | next hs e ih => exact step_timer_ws _ ih e

/-- Helper: one step preserves positivity of the attempt counter. -/
theorem step_attempts_pos (s : RcState) (h : 1 ≤ s.attempts) (e : Ev) :
    1 ≤ (step s e).1.attempts := by
  cases e <;>
    simp_all [step, RcState.send, RcState.close, RcState.retry, RcState.refresh,
      RcState.closeInternal, RcState.onopen, RcState.onclose, RcState.connect,
      RcState.timeoutFire, RcState.flushFire, RcState.sendQueued,
      RcState.reconnect] <;>
    (try split) <;> (try simp_all) <;> (try split) <;> (try simp_all) <;>
    (try split) <;> (try simp_all) <;> (try omega)

/-- Helper: in every reachable state the attempt counter is at least
one. -/
theorem reachable_attempts_pos (s : RcState) (hr : Reachable s) :
    1 ≤ s.attempts := by
  induction hr with
  | base => simp [initState]
  | next hs e ih => exact step_attempts_pos _ ih e

/-- Claim C5: in every reachable state the attempt counter is at
least 1, and a step changes it in exactly two situations: a transport
close that is neither forced nor suppressed (the transition into the
reconnect wait) increments it by exactly 1, a transport open while
not forced resets it to 1, and every other step leaves it unchanged. -/
theorem c5_attempts (s : RcState) (hr : Reachable s) :
    1 ≤ s.attempts
    ∧ ∀ e : Ev, (step s e).1.attempts =
      if e = Ev.wsClose ∧ s.ws = true ∧ s.wasForced = false ∧ s.hasUnloaded = false
      then s.attempts + 1
      else if e = Ev.wsOpen ∧ s.ws = true ∧ s.wasForced = false then 1
      else s.attempts := by
  refine ⟨reachable_attempts_pos s hr, fun e => ?_⟩
  cases e <;>
    simp_all [step, RcState.send, RcState.close, RcState.retry, RcState.refresh,
      RcState.closeInternal, RcState.onopen, RcState.onclose, RcState.connect,
      RcState.timeoutFire, RcState.flushFire, RcState.sendQueued,
      RcState.reconnect] <;>
    (try split) <;> (try simp_all) <;> (try split) <;> (try simp_all) <;>
    (try split) <;> (try simp_all) <;> (try omega)

/-- Claim C5 witness at the constructor state: the counter starts at
1 and an unload step leaves it unchanged. -/
theorem c5_attempts_witness :
    1 ≤ initState.attempts
    ∧ (step initState Ev.unload).1.attempts = initState.attempts := by
  have h := c5_attempts initState Reachable.base
  refine ⟨h.1, ?_⟩
  have h2 := h.2 Ev.unload
  simpa using h2

/-- Claim C8: the connect-timeout can fire only while it is pending (a
cleared timer is a no-op); when it fires it emits the timeout
notification immediately followed by the retry-labeled close of the
transport (isRetrying set, transport close requested, which is
possible because a pending timer implies a live transport); and both
the transport open signal and the transport close signal cancel the
pending connect-timeout. -/
theorem c8_connect_timeout (s : RcState) (hr : Reachable s) :
    (s.connectTimer = false → step s Ev.fireTimeout = (s, []))
    ∧ (s.connectTimer = true →
        (step s Ev.fireTimeout).2 = [Out.ontimeout, Out.wsCloseReq]
        ∧ (step s Ev.fireTimeout).1.isRetrying = true
        ∧ (step s Ev.fireTimeout).1.connectTimer = false)
    ∧ (s.ws = true →
        (step s Ev.wsOpen).1.connectTimer = false
        ∧ (step s Ev.wsClose).1.connectTimer = false) := by
  have hws := reachable_timer_ws s hr
  refine ⟨fun h => by simp [step, h], fun h => ?_, fun hw => ?_⟩
  · have hw : s.ws = true := hws h
    simp [step, h, hw, RcState.timeoutFire, RcState.retry, RcState.closeInternal]
  · constructor <;>
      simp_all [step, RcState.onopen, RcState.onclose, RcState.close,
        RcState.closeInternal, RcState.sendQueued, RcState.reconnect] <;>
      (try split) <;> (try simp_all) <;> (try split) <;> (try simp_all) <;>
    (try split) <;> (try simp_all) <;> (try omega)

/-- Claim C8 witness: at the constructor state no connect-timeout is
pending, so firing it is a no-op. -/
theorem c8_connect_timeout_witness :
    step initState Ev.fireTimeout = (initState, []) :=
  (c8_connect_timeout initState Reachable.base).1 rfl

/-- Claim C7: from an open, unforced, unsuppressed state with no other
flag set and no pending reconnect timer, retry() closes the transport
and the following transport close reports an augmented event with
isRetrying true and isRefreshing false, clears both flags before the
reconnect timer fires, and the reconnect timer then executes a fresh
connect attempt; symmetrically for refresh() with the flags swapped.
Neither flag suppresses the automatic reconnection. -/
theorem c7_retry_refresh (s : RcState)
    (h1 : s.ws = true) (h2 : s.wasForced = false) (h3 : s.hasUnloaded = false)
    (h4 : s.isRetrying = false) (h5 : s.isRefreshing = false)
    (h6 : s.hasOpened = true) (h7 : s.reconnectTimers = []) :
    (run s [Ev.retry, Ev.wsClose, Ev.fireReconnect]).2 =
      [Out.wsCloseReq, Out.onclose ⟨false, true, false⟩,
       Out.connectAttempt, Out.onconnecting]
    ∧ (run s [Ev.retry, Ev.wsClose]).1.isRetrying = false
    ∧ (run s [Ev.retry, Ev.wsClose]).1.isRefreshing = false
    ∧ (run s [Ev.refresh, Ev.wsClose, Ev.fireReconnect]).2 =
      [Out.wsCloseReq, Out.onclose ⟨false, false, true⟩,
       Out.connectAttempt, Out.onconnecting]
    ∧ (run s [Ev.refresh, Ev.wsClose]).1.isRetrying = false
    ∧ (run s [Ev.refresh, Ev.wsClose]).1.isRefreshing = false := by
  refine ⟨?_, ?_, ?_, ?_, ?_, ?_⟩ <;>
    simp [run, step, RcState.retry, RcState.refresh, RcState.closeInternal,
      RcState.onclose, RcState.reconnect, RcState.connect,
      h1, h2, h3, h4, h5, h6, h7]

/-- Claim C7 witness at a concrete open state. -/
theorem c7_retry_refresh_witness :
    (run { ws := true, hasOpened := true } [Ev.retry, Ev.wsClose, Ev.fireReconnect]).2 =
      [Out.wsCloseReq, Out.onclose ⟨false, true, false⟩,
       Out.connectAttempt, Out.onconnecting] :=
  (c7_retry_refresh { ws := true, hasOpened := true }
    rfl rfl rfl rfl rfl rfl rfl).1

/-- Claim C2 (amended) witness at a concrete connecting state: close
then the transport close reaches the CLOSED readyState. -/
theorem c2_forced_close_terminal_witness :
    (step (step { ws := true : RcState } Ev.close).1 Ev.wsClose).1.readyState
      = some 3 :=
  ((c2_forced_close_terminal { ws := true }).2.1 rfl rfl).1
